import Mathlib

set_option maxHeartbeats 1000000

namespace Whatapi

/-- Decidable equality for Except, used to evaluate concrete runs of the client. -/
instance {ε α : Type} [DecidableEq ε] [DecidableEq α] : DecidableEq (Except ε α) := fun a b =>
  match a, b with
  | .ok x, .ok y =>
    if h : x = y then isTrue (by rw [h]) else isFalse (fun hc => by cases hc; exact h rfl)
  | .error x, .error y =>
    if h : x = y then isTrue (by rw [h]) else isFalse (fun hc => by cases hc; exact h rfl)
  | .ok _, .error _ => isFalse (fun hc => by cases hc)
  | .error _, .ok _ => isFalse (fun hc => by cases hc)

/-- Errors surfaced by the client. requestFailedLogin embeds errRequestFailedLogin,
requestFailedReason embeds errRequestFailedReason (non-200 status in doRequest),
loginFailed embeds errLoginFailed, sqlErrNoRows embeds sql.ErrNoRows; apiError is the
envelope-failure error produced by checkResponseStatus, decodeError a json.Unmarshal
failure, dbError a database error, netError a transport failure. The error values
themselves live outside src/ and are modelled as plain constructors. -/
inductive Err where
  | requestFailedLogin
  | requestFailedReason (s : String)
  | loginFailed
  | apiError (msg : String)
  | decodeError (s : String)
  | sqlErrNoRows
  | dbError (s : String)
  | netError (s : String)
deriving DecidableEq

/-- Observable effects of a run: a dispatcher GET (doRequest), the credential form POST
of Login (client.Do on login.php), the logout GET (client.Get in Logout), a SELECT from
the urlcache table, a REPLACE into the urlcache table, a SELECT from the cookies table
(getCookies), and a REPLACE into the cookies table (saveCookies). -/
inductive Event where
  | netCall (url : String)
  | loginPost
  | logoutGet
  | cacheQuery (url : String)
  | cacheWrite (url : String)
  | cookiesLoad
  | cookiesSave
deriving DecidableEq

/-- GenericResponse (whatapi.go lines 388-391): the minimal status/error envelope. -/
structure GenericResponse where
  status : String
  error : String
deriving DecidableEq

/-- One row of the urlcache table (schema in whatapi.go lines 58-62): request URL,
body, and fetch timestamp. Timestamps are modelled as natural numbers. -/
structure CacheRow where
  requesturl : String
  body : String
  timestamp : Nat
deriving DecidableEq

/-- Contents of the sql backing store: the urlcache table and the cookies table
(schema in whatapi.go lines 56-68). Cookie rows map a base URL to a serialized
cookie set. -/
structure DB where
  urlcache : List CacheRow
  cookies : List (String × String)
deriving DecidableEq

/-- ClientStruct (whatapi.go lines 257-266). The http.Client with its cookie jar is
embedded as the serialized jar contents (serialization is an internal detail per the
spec); db is the optional backing store contents; cacheFor the TTL. -/
structure ClientStruct where
  baseURL : String
  userAgent : String
  jar : String
  authkey : String
  passkey : String
  loggedIn : Bool
  db : Option DB
  cacheFor : Nat
deriving DecidableEq

/-- Modelled from the spec: the account entity shape is not in src/ (domain entity
shapes are out-of-scope collaborators); only the envelope fields and the two
session-scoped secrets authKey and passKey are modelled. -/
structure AccountPayload where
  authKey : String
  passKey : String
deriving DecidableEq

/-- Modelled from the spec: AccountResponse, the target shape of the account probe,
with its envelope fields and nested payload. -/
structure AccountResponse where
  status : String
  error : String
  response : AccountPayload
deriving DecidableEq

/-- Modelled from the spec: buildURL is a URL-building utility not in src/ and treated
by the spec as an external collaborator; it is modelled as deterministic string
concatenation of base URL, path, the action query parameter and the remaining
parameters, and never fails. -/
def buildURL (base path action : String) (params : List (String × String)) : String :=
  base ++ path ++ "?action=" ++ action ++
    String.join (params.map (fun p => "&" ++ p.1 ++ "=" ++ p.2))

/-- Modelled from the spec: checkResponseStatus is not in src/; per the dispatcher
design, a status that does not signal success yields APIError carrying the embedded
error message, and a success status passes. -/
def checkResponseStatus (status errorStr : String) : Option Err :=
  if status = "success" then none else some (.apiError errorStr)

/-- Fuel-driven helper for replaceAll; fuel at least the length of the text guarantees
completion. Replaces non-overlapping occurrences left to right, as bytes.ReplaceAll. -/
def replaceAllAux (pat rep : List Char) : Nat → List Char → List Char
  | 0, s => s
  | Nat.succ fuel, s =>
    match s with
    | [] => []
    | c :: rest =>
      if pat ≠ [] ∧ pat.isPrefixOf s then
        rep ++ replaceAllAux pat rep fuel (s.drop pat.length)
      else
        c :: replaceAllAux pat rep fuel rest

/-- Embedding of bytes.ReplaceAll for a nonempty pattern: replace every non-overlapping
occurrence of pat in s by rep, scanning left to right. -/
def replaceAll (s pat rep : String) : String :=
  String.mk (replaceAllAux pat.toList rep.toList s.toList.length s.toList)

/-- Helper for containsSubstr: does pat occur as a contiguous sublist. -/
def containsSubAux (pat : List Char) : List Char → Bool
  | [] => pat.isPrefixOf []
  | c :: rest => pat.isPrefixOf (c :: rest) || containsSubAux pat rest

/-- Embedding of strings.Contains: pat occurs as a substring of s. -/
def containsSubstr (s pat : String) : Bool :=
  containsSubAux pat.toList s.toList

/-- Modelled from the spec: the sql driver executing the REPLACE INTO urlcache
statement of updateCache. With requesturl the primary key, REPLACE removes any
existing row with that key, inserts the new row, and reports one affected row. -/
def sqliteReplaceUrlcache (table : List CacheRow) (requestURL body : String) (now : Nat) :
    List CacheRow × Int :=
  (⟨requestURL, body, now⟩ :: table.filter (fun r => r.requesturl ≠ requestURL), 1)

/-- updateCache (whatapi.go lines 293-313): no-op without a backing store; otherwise
run the REPLACE through the driver exec, and fail hard unless exactly one row was
affected. The driver is a parameter; sqliteReplaceUrlcache is the standard driver. -/
def updateCache (exec : List CacheRow → String → String → Nat → List CacheRow × Int)
    (w : ClientStruct) (requestURL body : String) (now : Nat) :
    Except Err Unit × ClientStruct × List Event :=
  match w.db with
  | none => (.ok (), w, [])
  | some db =>
    let res := exec db.urlcache requestURL body now
    if res.2 ≠ 1 then
      (.error (.dbError ("INSERT affected " ++ toString res.2 ++ " rows, expected 1")),
        w, [.cacheWrite requestURL])
    else
      (.ok (), { w with db := some { db with urlcache := res.1 } }, [.cacheWrite requestURL])

/-- cachedResponse (whatapi.go lines 315-331): without a backing store return a nil
body and nil error; otherwise query the row for the URL (no row scans as
sql.ErrNoRows), and report sql.ErrNoRows as well when the body is empty or the age
exceeds the TTL; otherwise return the body. -/
def cachedResponse (w : ClientStruct) (requestURL : String) (now : Nat) :
    Option String × Option Err × List Event :=
  match w.db with
  | none => (none, none, [])
  | some db =>
    match db.urlcache.find? (fun r => r.requesturl = requestURL) with
    | none => (none, some .sqlErrNoRows, [.cacheQuery requestURL])
    | some row =>
      if row.body = "" ∨ now - row.timestamp > w.cacheFor then
        (none, some .sqlErrNoRows, [.cacheQuery requestURL])
      else
        (some row.body, none, [.cacheQuery requestURL])

/-- Which branch of the type switch of GetJSON (whatapi.go lines 366-384) the
caller-supplied target shape selects. -/
inductive TargetType where
  | artistResponse
  | topTenTorrentsResponse
  | other (name : String)
deriving DecidableEq

/-- The malformed fragment rewritten for ArtistResponse. -/
def extArtistsOld : String := "\"extendedArtists\":false"

/-- Its replacement. -/
def extArtistsNew : String := "\"extendedArtists\":\x7b\x7d"

/-- The malformed fragment rewritten for TopTenTorrentsResponse. -/
def artistFalseOld : String := "\"artist\":false"

/-- Its replacement. -/
def artistFalseNew : String := "\"artist\":\"\""

/-- Decode phase of GetJSON (whatapi.go lines 358-385): decode the generic envelope,
check its status, apply the scoped quirk rewrite when the target is one of the two
known-quirky shapes and its first decode fails, then run the final decode. The
json.Unmarshal decoders for the envelope and for the target are external collaborators
passed as functions. -/
def decodePhase {τ : Type} (envDec : String → Except Err GenericResponse)
    (target : TargetType) (unmarshal : String → Except Err τ)
    (w : ClientStruct) (body : String) (evs : List Event) :
    Except Err τ × ClientStruct × List Event :=
  match envDec body with
  | .error e => (.error e, w, evs)
  | .ok st =>
    match checkResponseStatus st.status st.error with
    | some e => (.error e, w, evs)
    | none =>
      let body2 :=
        match target with
        | .artistResponse =>
          match unmarshal body with
          | .ok _ => body
          | .error _ => replaceAll body extArtistsOld extArtistsNew
        | .topTenTorrentsResponse =>
          match unmarshal body with
          | .ok _ => body
          | .error _ => replaceAll body artistFalseOld artistFalseNew
        | .other _ => body
      (unmarshal body2, w, evs)

/-- GetJSON (whatapi.go lines 334-386): reject when not logged in; consult the cache;
on a nil-db or sql.ErrNoRows outcome fetch over the network (fetch embeds doRequest)
and write the cache, propagating a write failure; on any other cache error propagate
it; otherwise use the cached body; then run the decode phase. -/
def GetJSON {τ : Type} (fetch : String → Except Err String)
    (envDec : String → Except Err GenericResponse)
    (target : TargetType) (unmarshal : String → Except Err τ)
    (w : ClientStruct) (requestURL : String) (now : Nat) :
    Except Err τ × ClientStruct × List Event :=
  if w.loggedIn = false then
    (.error .requestFailedLogin, w, [])
  else
    let c := cachedResponse w requestURL now
    if w.db.isNone = true ∨ c.2.1 = some Err.sqlErrNoRows then
      match fetch requestURL with
      | .error e => (.error e, w, c.2.2 ++ [.netCall requestURL])
      | .ok body =>
        match updateCache sqliteReplaceUrlcache w requestURL body now with
        | (.error e, w1, evs2) => (.error e, w1, c.2.2 ++ [.netCall requestURL] ++ evs2)
        | (.ok _, w1, evs2) =>
          decodePhase envDec target unmarshal w1 body (c.2.2 ++ [.netCall requestURL] ++ evs2)
    else
      match c.2.1 with
      | some e => (.error e, w, c.2.2)
      | none => decodePhase envDec target unmarshal w (c.1.getD "") c.2.2

/-- The external collaborators of the session functions: the dispatcher GET transport,
the json decoders for the envelope and the account shape, the login POST (returning
the final post-redirect URL), the json decode of a stored cookie record into jar
contents, and the plain GET used by Logout. -/
structure Env where
  fetch : String → Except Err String
  envDec : String → Except Err GenericResponse
  accDec : String → Except Err AccountResponse
  postLogin : String → String → Except Err String
  parseCookies : String → Except Err String
  clientGet : String → Except Err Unit

/-- getCookies (whatapi.go lines 432-453): no-op without a backing store; a missing
cookie row is normal (jar unchanged); a present row is decoded and, on success, set
into the jar; a decode failure is returned. -/
def getCookies (env : Env) (w : ClientStruct) :
    Except Err Unit × ClientStruct × List Event :=
  match w.db with
  | none => (.ok (), w, [])
  | some db =>
    match db.cookies.find? (fun p => p.1 = w.baseURL) with
    | none => (.ok (), w, [.cookiesLoad])
    | some p =>
      match env.parseCookies p.2 with
      | .ok cs => (.ok (), { w with jar := cs }, [.cookiesLoad])
      | .error e => (.error e, w, [.cookiesLoad])

/-- saveCookies (whatapi.go lines 463-476): no-op without a backing store; otherwise
REPLACE the cookie row for the base URL with the serialized jar (serialization is an
internal detail and modelled as the identity). -/
def saveCookies (w : ClientStruct) :
    Except Err Unit × ClientStruct × List Event :=
  match w.db with
  | none => (.ok (), w, [])
  | some db =>
    let c := w.jar
    let db2 := { db with cookies := (w.baseURL, c) :: db.cookies.filter (fun p => p.1 ≠ w.baseURL) }
    (.ok (), { w with db := some db2 }, [.cookiesSave])

/-- clearCookies (whatapi.go lines 455-461): install a fresh empty jar (cookiejar.New
with nil options cannot fail) and persist it. -/
def clearCookies (w : ClientStruct) :
    Except Err Unit × ClientStruct × List Event :=
  saveCookies { w with jar := "" }

/-- GetAccount (whatapi.go lines 539-559): build the account URL, save db and loggedIn,
run the non-cached probe with db nil and loggedIn true, restore db and loggedIn, then
on success of both the dispatch and the envelope check store the two secrets. -/
def GetAccount (env : Env) (w : ClientStruct) (now : Nat) :
    Except Err Unit × ClientStruct × List Event :=
  let requestURL := buildURL w.baseURL "ajax.php" "index" []
  let db := w.db
  let loggedIn := w.loggedIn
  let w1 := { w with db := none, loggedIn := true }
  match GetJSON env.fetch env.envDec (.other "AccountResponse") env.accDec w1 requestURL now with
  | (r, w2, evs) =>
    let w3 := { w2 with db := db, loggedIn := loggedIn }
    match r with
    | .error e => (.error e, w3, evs)
    | .ok account =>
      match checkResponseStatus account.status account.error with
      | some e => (.error e, w3, evs)
      | none =>
        (.ok (),
          { w3 with authkey := account.response.authKey, passkey := account.response.passKey },
          evs)

/-- The credential-submission tail of Login (whatapi.go lines 497-521): POST the form
to login.php; classify a final URL without the success marker as loginFailed; set
loggedIn, probe the account, and persist the cookie jar. -/
def loginSubmit (env : Env) (w : ClientStruct) (username password : String) (now : Nat) :
    Except Err Unit × ClientStruct × List Event :=
  match env.postLogin username password with
  | .error e => (.error e, w, [.loginPost])
  | .ok finalURL =>
    if containsSubstr finalURL "index" = false then
      (.error .loginFailed, w, [.loginPost])
    else
      let w1 := { w with loggedIn := true }
      match GetAccount env w1 now with
      | (.error e, w2, evs) => (.error e, w2, .loginPost :: evs)
      | (.ok _, w2, evs) =>
        match saveCookies w2 with
        | (r, w3, evs2) => (r, w3, .loginPost :: (evs ++ evs2))

/-- Login (whatapi.go lines 479-521): with a backing store, load saved cookies and try
the silent account probe, returning success without credentials when it succeeds;
otherwise clear and persist the jar and fall through to credential submission. -/
def Login (env : Env) (w : ClientStruct) (username password : String) (now : Nat) :
    Except Err Unit × ClientStruct × List Event :=
  match w.db with
  | some _ =>
    match getCookies env w with
    | (.error e, w1, evs1) => (.error e, w1, evs1)
    | (.ok _, w1, evs1) =>
      match GetAccount env w1 now with
      | (.ok _, w2, evs2) => (.ok (), { w2 with loggedIn := true }, evs1 ++ evs2)
      | (.error _, w2, evs2) =>
        match clearCookies w2 with
        | (.error e, w3, evs3) => (.error e, w3, evs1 ++ evs2 ++ evs3)
        | (.ok _, w3, evs3) =>
          match loginSubmit env w3 username password now with
          | (r, w4, evs4) => (r, w4, evs1 ++ evs2 ++ evs3 ++ evs4)
  | none => loginSubmit env w username password now

/-- Logout (whatapi.go lines 524-536): build the logout URL carrying the auth key,
issue the GET, and only when it succeeds clear loggedIn, authkey and passkey. -/
def Logout (env : Env) (w : ClientStruct) :
    Except Err Unit × ClientStruct × List Event :=
  let requestURL := buildURL w.baseURL "logout.php" "" [("auth", w.authkey)]
  match env.clientGet requestURL with
  | .error e => (.error e, w, [.logoutGet])
  | .ok _ => (.ok (), { w with loggedIn := false, authkey := "", passkey := "" }, [.logoutGet])

/-- An environment whose logout GET fails at the transport: drives the Logout error
path. -/
def c1Env : Env :=
  { fetch := fun _ => Except.error (.netError "down"),
    envDec := fun _ => Except.error (.decodeError "bad json"),
    accDec := fun _ => Except.error (.decodeError "bad json"),
    postLogin := fun _ _ => Except.error (.netError "down"),
    parseCookies := fun s => Except.ok s,
    clientGet := fun _ => Except.error (.netError "down") }

/-- A logged-in client with nonempty secrets and no backing store. -/
def c1Client : ClientStruct :=
  { baseURL := "https://t/", userAgent := "ua", jar := "", authkey := "a", passkey := "p",
    loggedIn := true, db := none, cacheFor := 0 }

/-- An environment whose logout GET succeeds. -/
def c1wEnv : Env :=
  { c1Env with clientGet := fun _ => Except.ok () }

/-- An environment in which the silent cookie-based resumption succeeds: saved cookies
parse, the account probe fetch succeeds and both decodes report success; the
credential POST is unreachable and set to fail. -/
def c2Env : Env :=
  { fetch := fun _ => Except.ok "\x7b\"status\":\"success\"\x7d",
    envDec := fun _ => Except.ok ⟨"success", ""⟩,
    accDec := fun _ => Except.ok ⟨"success", "", ⟨"AK", "PK"⟩⟩,
    postLogin := fun _ _ => Except.error (.netError "down"),
    parseCookies := fun s => Except.ok s,
    clientGet := fun _ => Except.ok () }

/-- A fresh client whose backing store holds a previously saved cookie record for its
base URL. -/
def c2Client : ClientStruct :=
  { baseURL := "https://t/", userAgent := "ua", jar := "", authkey := "", passkey := "",
    loggedIn := false, db := some ⟨[], [("https://t/", "J")]⟩, cacheFor := 0 }

/-- The concrete failure envelope body of the spec example. -/
def c3Body : String := "\x7b\"status\":\"failure\",\"error\":\"bad id parameter\"\x7d"

/-- A JSON envelope decoder that decodes exactly the concrete failure body. -/
def c3EnvDec : String → Except Err GenericResponse :=
  fun s => if s = c3Body then Except.ok ⟨"failure", "bad id parameter"⟩
           else Except.error (.decodeError "bad json")

/-- A logged-in cache-less client for the dispatch examples. -/
def c3Client : ClientStruct :=
  { baseURL := "https://t/", userAgent := "ua", jar := "", authkey := "", passkey := "",
    loggedIn := true, db := none, cacheFor := 0 }

/-- A client that has never logged in. -/
def c4Client : ClientStruct :=
  { baseURL := "https://t/", userAgent := "ua", jar := "", authkey := "", passkey := "",
    loggedIn := false, db := none, cacheFor := 0 }

/-- An environment for exercising the bootstrap probe of GetAccount. -/
def c4Env : Env :=
  { fetch := fun _ => Except.ok "\x7b\"status\":\"success\"\x7d",
    envDec := fun _ => Except.ok ⟨"success", ""⟩,
    accDec := fun _ => Except.ok ⟨"success", "", ⟨"AK", "PK"⟩⟩,
    postLogin := fun _ _ => Except.error (.netError "down"),
    parseCookies := fun s => Except.ok s,
    clientGet := fun _ => Except.ok () }

/-- A success-envelope body carrying the known malformed extendedArtists fragment. -/
def c5Body : String := "\x7b\"status\":\"success\",\"extendedArtists\":false\x7d"

/-- The same body after the corrective rewrite. -/
def c5BodyFixed : String := "\x7b\"status\":\"success\",\"extendedArtists\":\x7b\x7d\x7d"

/-- A target decoder that rejects any body still carrying the malformed fragment and
accepts the body itself otherwise. -/
def c5Unm : String → Except Err String :=
  fun s => if containsSubstr s extArtistsOld = true then Except.error (.decodeError "ea")
           else Except.ok s

/-- An envelope decoder reporting success for every body. -/
def c5EnvDec : String → Except Err GenericResponse :=
  fun _ => Except.ok ⟨"success", ""⟩

/-- A logged-in cache-less client for the quirk example. -/
def c5Client : ClientStruct :=
  { baseURL := "https://t/", userAgent := "ua", jar := "", authkey := "", passkey := "",
    loggedIn := true, db := none, cacheFor := 0 }

/-- A logged-in client whose cache holds a row for url u with an empty body, fetched
at time 5, with a TTL of 100. -/
def c6Client : ClientStruct :=
  { baseURL := "https://t/", userAgent := "ua", jar := "", authkey := "", passkey := "",
    loggedIn := true, db := some ⟨[⟨"u", "", 5⟩], []⟩, cacheFor := 100 }

/-- An envelope decoder reporting success for every body. -/
def c6EnvDec : String → Except Err GenericResponse :=
  fun _ => Except.ok ⟨"success", ""⟩

/-- A logged-in client with an enabled but empty cache. -/
def c6wClientA : ClientStruct :=
  { baseURL := "https://t/", userAgent := "ua", jar := "", authkey := "", passkey := "",
    loggedIn := true, db := some ⟨[], []⟩, cacheFor := 100 }

/-- A logged-in client whose cache holds a live nonempty row for url u. -/
def c6wClientB : ClientStruct :=
  { baseURL := "https://t/", userAgent := "ua", jar := "", authkey := "", passkey := "",
    loggedIn := true, db := some ⟨[⟨"u", "B", 5⟩], []⟩, cacheFor := 100 }

/-- A client with an enabled, empty cache for the replace-semantics example. -/
def c7Client : ClientStruct :=
  { baseURL := "https://t/", userAgent := "ua", jar := "", authkey := "", passkey := "",
    loggedIn := true, db := some ⟨[], []⟩, cacheFor := 100 }

/-- A misbehaving driver reporting zero affected rows: drives the hard-error guard of
updateCache. -/
def c7BadExec : List CacheRow → String → String → Nat → List CacheRow × Int :=
  fun table _ _ _ => (table, 0)

/-- An environment in which the saved-cookie probe succeeds. -/
def c8Env : Env :=
  { fetch := fun _ => Except.ok "\x7b\"status\":\"success\"\x7d",
    envDec := fun _ => Except.ok ⟨"success", ""⟩,
    accDec := fun _ => Except.ok ⟨"success", "", ⟨"AK", "PK"⟩⟩,
    postLogin := fun _ _ => Except.error (.netError "down"),
    parseCookies := fun s => Except.ok s,
    clientGet := fun _ => Except.ok () }

/-- A fresh client whose backing store holds a previously saved cookie record for its
base URL. -/
def c8Client : ClientStruct :=
  { baseURL := "https://t/", userAgent := "ua", jar := "", authkey := "", passkey := "",
    loggedIn := false, db := some ⟨[], [("https://t/", "J")]⟩, cacheFor := 0 }

/-- An environment whose account fetch fails at the transport. -/
def c9Env : Env :=
  { fetch := fun _ => Except.error (.netError "down"),
    envDec := fun _ => Except.error (.decodeError "bad json"),
    accDec := fun _ => Except.error (.decodeError "bad json"),
    postLogin := fun _ _ => Except.error (.netError "down"),
    parseCookies := fun s => Except.ok s,
    clientGet := fun _ => Except.ok () }

/-- A logged-in client with a nonempty cache and nonempty secrets, to observe that the
probe restores them. -/
def c9Client : ClientStruct :=
  { baseURL := "https://t/", userAgent := "ua", jar := "", authkey := "a", passkey := "p",
    loggedIn := true, db := some ⟨[⟨"u", "B", 5⟩], []⟩, cacheFor := 100 }

/-- A logged-in client whose cache holds a live-aged row with an empty body. -/
def c10Client : ClientStruct :=
  { baseURL := "https://t/", userAgent := "ua", jar := "", authkey := "", passkey := "",
    loggedIn := true, db := some ⟨[⟨"u", "", 5⟩], []⟩, cacheFor := 100 }

/-- An envelope decoder reporting success for every body. -/
def c10EnvDec : String → Except Err GenericResponse :=
  fun _ => Except.ok ⟨"success", ""⟩

/-- The decode phase never changes the client state. -/
theorem decodePhase_client {τ : Type} (envDec : String → Except Err GenericResponse)
    (target : TargetType) (unmarshal : String → Except Err τ)
    (w : ClientStruct) (body : String) (evs : List Event) :
    (decodePhase envDec target unmarshal w body evs).2.1 = w := by
  unfold decodePhase
  split
  · rfl
  · split
    · rfl
    · rfl

/-- The decode phase never adds events. -/
theorem decodePhase_trace {τ : Type} (envDec : String → Except Err GenericResponse)
    (target : TargetType) (unmarshal : String → Except Err τ)
    (w : ClientStruct) (body : String) (evs : List Event) :
    (decodePhase envDec target unmarshal w body evs).2.2 = evs := by
  unfold decodePhase
  split
  · rfl
  · split
    · rfl
    · rfl

/-- With no backing store and the gate passed, a dispatch leaves the client unchanged
and its trace is exactly one network call. -/
theorem GetJSON_db_none {τ : Type} (fetch : String → Except Err String)
    (envDec : String → Except Err GenericResponse) (target : TargetType)
    (unmarshal : String → Except Err τ) (w : ClientStruct) (url : String) (now : Nat)
    (hdb : w.db = none) (hin : w.loggedIn = true) :
    (GetJSON fetch envDec target unmarshal w url now).2.1 = w ∧
    (GetJSON fetch envDec target unmarshal w url now).2.2 = [.netCall url] := by
  unfold GetJSON
  rw [hin, hdb]
  simp only [cachedResponse, updateCache, hdb]
  cases fetch url with
  | error e => simp
  | ok body => simp [decodePhase_client, decodePhase_trace]

/-- The trace of the account probe is exactly one non-cached network call to the
account-info URL. -/
theorem GetAccount_trace (env : Env) (w : ClientStruct) (now : Nat) :
    (GetAccount env w now).2.2 = [Event.netCall (buildURL w.baseURL "ajax.php" "index" [])] := by
  unfold GetAccount
  rcases hg : GetJSON env.fetch env.envDec (TargetType.other "AccountResponse") env.accDec
      { w with db := none, loggedIn := true } (buildURL w.baseURL "ajax.php" "index" []) now
    with ⟨r, w2, evs⟩
  have ht := (GetJSON_db_none env.fetch env.envDec (TargetType.other "AccountResponse")
      env.accDec { w with db := none, loggedIn := true }
      (buildURL w.baseURL "ajax.php" "index" []) now rfl rfl).2
  rw [hg] at ht
  simp only
  rw [hg]
  cases r with
  | error e => exact ht
  | ok account =>
    cases h : checkResponseStatus account.status account.error with
    | none => simpa [h] using ht
    | some e => simpa [h] using ht

/-- The account probe changes at most the two secrets of the client. -/
theorem GetAccount_client (env : Env) (w : ClientStruct) (now : Nat) :
    ∃ a pk, (GetAccount env w now).2.1 = { w with authkey := a, passkey := pk } := by
  unfold GetAccount
  rcases hg : GetJSON env.fetch env.envDec (TargetType.other "AccountResponse") env.accDec
      { w with db := none, loggedIn := true } (buildURL w.baseURL "ajax.php" "index" []) now
    with ⟨r, w2, evs⟩
  have hc := (GetJSON_db_none env.fetch env.envDec (TargetType.other "AccountResponse")
      env.accDec { w with db := none, loggedIn := true }
      (buildURL w.baseURL "ajax.php" "index" []) now rfl rfl).1
  rw [hg] at hc
  simp only
  rw [hg]
  simp only at hc
  subst hc
  cases r with
  | error e =>
    refine ⟨w.authkey, w.passkey, ?_⟩
    cases w
    rfl
  | ok account =>
    cases h : checkResponseStatus account.status account.error with
    | none =>
      refine ⟨account.response.authKey, account.response.passKey, ?_⟩
      simp only [h]
    | some e =>
      refine ⟨w.authkey, w.passkey, ?_⟩
      simp only [h]

/-- When the account probe fails, the client is returned entirely unchanged. -/
theorem GetAccount_error_client (env : Env) (w : ClientStruct) (now : Nat) (e : Err)
    (h : (GetAccount env w now).1 = .error e) :
    (GetAccount env w now).2.1 = w := by
  unfold GetAccount at h ⊢
  rcases hg : GetJSON env.fetch env.envDec (TargetType.other "AccountResponse") env.accDec
      { w with db := none, loggedIn := true } (buildURL w.baseURL "ajax.php" "index" []) now
    with ⟨r, w2, evs⟩
  have hc := (GetJSON_db_none env.fetch env.envDec (TargetType.other "AccountResponse")
      env.accDec { w with db := none, loggedIn := true }
      (buildURL w.baseURL "ajax.php" "index" []) now rfl rfl).1
  rw [hg] at hc
  simp only at h ⊢
  rw [hg] at h ⊢
  simp only at hc
  subst hc
  cases r with
  | error e2 =>
    cases w
    rfl
  | ok account =>
    cases hcrs : checkResponseStatus account.status account.error with
    | none => simp [hcrs] at h
    | some e2 =>
      simp only [hcrs]

/-- Loading cookies changes at most the jar. -/
theorem getCookies_ok_client (env : Env) (w : ClientStruct) (r : Unit) (w1 : ClientStruct)
    (evs : List Event) (h : getCookies env w = (.ok r, w1, evs)) :
    ∃ j, w1 = { w with jar := j } := by
  unfold getCookies at h
  split at h
  · simp only [Prod.mk.injEq] at h
    obtain ⟨h1, h2, h3⟩ := h
    exact ⟨w.jar, h2 ▸ rfl⟩
  · split at h
    · simp only [Prod.mk.injEq] at h
      obtain ⟨h1, h2, h3⟩ := h
      exact ⟨w.jar, h2 ▸ rfl⟩
    · split at h
      · simp only [Prod.mk.injEq] at h
        obtain ⟨h1, h2, h3⟩ := h
        exact ⟨_, h2.symm⟩
      · simp only [Prod.mk.injEq] at h
        obtain ⟨h1, h2, h3⟩ := h
        cases h1

/-- The trace of loading cookies is empty or a single cookies-table read. -/
theorem getCookies_events (env : Env) (w : ClientStruct) :
    (getCookies env w).2.2 = [] ∨ (getCookies env w).2.2 = [Event.cookiesLoad] := by
  unfold getCookies
  split
  · exact Or.inl rfl
  · split
    · exact Or.inr rfl
    · split
      · exact Or.inr rfl
      · exact Or.inr rfl

/-- A dispatch whose cache lookup reports sql.ErrNoRows always issues the network
fetch for the request URL. -/
theorem GetJSON_miss_netCall {τ : Type} (fetch : String → Except Err String)
    (envDec : String → Except Err GenericResponse) (target : TargetType)
    (unmarshal : String → Except Err τ) (w : ClientStruct) (url : String) (now : Nat)
    (hin : w.loggedIn = true)
    (hmiss : (cachedResponse w url now).2.1 = some Err.sqlErrNoRows) :
    Event.netCall url ∈ (GetJSON fetch envDec target unmarshal w url now).2.2 := by
  unfold GetJSON
  rw [hin]
  simp only [hmiss, Bool.true_eq_false, if_false, or_true, if_true]
  cases fetch url with
  | error e => simp
  | ok body =>
    rcases hu : updateCache sqliteReplaceUrlcache w url body now with ⟨r2, w1, evs2⟩
    simp only [hu]
    cases r2 with
    | error e => simp
    | ok u => simp [decodePhase_trace]

/-- Rows surviving a filter that removes a key never match that key. -/
theorem filter_eq_after_ne (url : String) (l : List CacheRow) :
    (l.filter (fun r => r.requesturl ≠ url)).filter (fun r => r.requesturl = url) = [] := by
  induction l with
  | nil => rfl
  | cons a t ih =>
    by_cases h : a.requesturl = url
    · simp [List.filter_cons, h, ih]
    · simp [List.filter_cons, h, ih]

/-- Claim C1 counterexample: with a transport failure of the server-side logout GET,
Logout returns the error and does not invalidate the session locally: loggedIn stays
true and the secrets keep their prior values, refuting the claim that every outcome of
the server-side call still yields local invalidation. -/
theorem C1_counterexample :
    ¬ ((Logout c1Env c1Client).2.1.loggedIn = false ∧
       (Logout c1Env c1Client).2.1.authkey = "" ∧
       (Logout c1Env c1Client).2.1.passkey = "") := by decide

/-- Claim C1 (amended): Logout locally invalidates the session (loggedIn false and
empty secrets) exactly when the server-side logout GET succeeds; a transport failure
of that call is returned as the error and leaves the session state unchanged. -/
theorem C1_amended_local_invalidation (env : Env) (w : ClientStruct) :
    (∀ u : Unit,
       env.clientGet (buildURL w.baseURL "logout.php" "" [("auth", w.authkey)]) = .ok u →
       Logout env w
         = (.ok (), { w with loggedIn := false, authkey := "", passkey := "" },
            [.logoutGet])) ∧
    (∀ e : Err,
       env.clientGet (buildURL w.baseURL "logout.php" "" [("auth", w.authkey)]) = .error e →
       Logout env w = (.error e, w, [.logoutGet])) := by
  constructor
  · intro u h
    unfold Logout
    simp only [h]
  · intro e h
    unfold Logout
    simp only [h]

/-- Claim C1 witness: at a concrete client and an environment whose logout GET
succeeds, Logout returns success and clears loggedIn and both secrets. -/
theorem C1_witness :
    Logout c1wEnv c1Client
      = (.ok (), { c1Client with loggedIn := false, authkey := "", passkey := "" },
         [.logoutGet]) :=
  (C1_amended_local_invalidation c1wEnv c1Client).1 () rfl

/-- Claim C3: a failure-status envelope makes dispatch return APIError with the
embedded message, for every target shape and every target decoder, so the
endpoint-specific decode is never what is returned. -/
theorem C3_envelope_failure {τ : Type} (unmarshal : String → Except Err τ)
    (target : TargetType) (envDec : String → Except Err GenericResponse)
    (b : String) (st : GenericResponse) (w : ClientStruct) (url : String) (now : Nat)
    (hin : w.loggedIn = true) (hdb : w.db = none)
    (hdec : envDec b = .ok st) (hst : st.status = "failure") :
    GetJSON (fun _ => .ok b) envDec target unmarshal w url now
      = (.error (.apiError st.error), w, [Event.netCall url]) := by
  have hne : ¬ (st.status = "success") := by rw [hst]; decide
  unfold GetJSON
  rw [hin, hdb]
  simp only [cachedResponse, updateCache, decodePhase, checkResponseStatus, hdec, hne]
  simp [hdb]

/-- Claim C3 witness: the concrete failure body of the spec yields APIError with
message "bad id parameter" even though the target decoder accepts everything. -/
theorem C3_witness :
    GetJSON (fun _ => .ok c3Body) c3EnvDec (.other "X") (fun _ => Except.ok ())
        c3Client "u" 0
      = (.error (.apiError "bad id parameter"), c3Client, [Event.netCall "u"]) :=
  C3_envelope_failure (fun _ => Except.ok ()) (.other "X") c3EnvDec c3Body
    ⟨"failure", "bad id parameter"⟩ c3Client "u" 0 rfl rfl (by decide) rfl

/-- Claim C4: dispatch while not logged in fails with the authentication-required
error and touches neither the network nor the cache (empty trace, unchanged client);
the bootstrap probe of GetAccount suspends that check: its trace always contains the
non-cached network call to the account URL, whatever the loggedIn flag was. -/
theorem C4_auth_gate :
    (∀ (τ : Type) (fetch : String → Except Err String)
       (envDec : String → Except Err GenericResponse) (target : TargetType)
       (unmarshal : String → Except Err τ) (w : ClientStruct) (url : String) (now : Nat),
       w.loggedIn = false →
       GetJSON fetch envDec target unmarshal w url now
         = (.error .requestFailedLogin, w, [])) ∧
    (∀ (env : Env) (w : ClientStruct) (now : Nat),
       Event.netCall (buildURL w.baseURL "ajax.php" "index" [])
         ∈ (GetAccount env w now).2.2) := by
  constructor
  · intro τ fetch envDec target unmarshal w url now h
    unfold GetJSON
    rw [h]
    rfl
  · intro env w now
    rw [GetAccount_trace]
    exact List.mem_singleton.mpr rfl

/-- Claim C4 witness: a concrete never-logged-in client is rejected with an empty
trace, while the bootstrap probe on the same client still reaches the network. -/
theorem C4_witness :
    GetJSON (fun _ => Except.ok "B") (fun _ => Except.ok (⟨"success", ""⟩ : GenericResponse))
        (.other "T") (fun _ => Except.ok ()) c4Client "u" 0
      = (.error .requestFailedLogin, c4Client, []) ∧
    Event.netCall (buildURL c4Client.baseURL "ajax.php" "index" [])
      ∈ (GetAccount c4Env c4Client 0).2.2 :=
  ⟨C4_auth_gate.1 Unit _ _ _ _ c4Client "u" 0 rfl, C4_auth_gate.2 c4Env c4Client 0⟩

/-- Claim C10: a cached row with an empty body is reported as not found
(sql.ErrNoRows) whatever its age, and a logged-in dispatch for that URL then issues
the network fetch instead of returning the empty cached body. -/
theorem C10_empty_body_refetch (w : ClientStruct) (db : DB) (url : String) (now : Nat)
    (row : CacheRow) (hdb : w.db = some db)
    (hfind : db.urlcache.find? (fun r => r.requesturl = url) = some row)
    (hbody : row.body = "") :
    cachedResponse w url now = (none, some .sqlErrNoRows, [.cacheQuery url]) ∧
    (∀ (τ : Type) (fetch : String → Except Err String)
       (envDec : String → Except Err GenericResponse) (target : TargetType)
       (unmarshal : String → Except Err τ),
       w.loggedIn = true →
       Event.netCall url ∈ (GetJSON fetch envDec target unmarshal w url now).2.2) := by
  have hc : cachedResponse w url now = (none, some .sqlErrNoRows, [.cacheQuery url]) := by
    unfold cachedResponse
    rw [hdb]
    simp only [hfind, hbody]
    simp
  refine ⟨hc, ?_⟩
  intro τ fetch envDec target unmarshal hin
  exact GetJSON_miss_netCall fetch envDec target unmarshal w url now hin (by rw [hc])

/-- Claim C10 witness: a live-aged empty-body row is a miss and the dispatch issues
the network fetch. -/
theorem C10_witness :
    cachedResponse c10Client "u" 5 = (none, some .sqlErrNoRows, [.cacheQuery "u"]) ∧
    Event.netCall "u" ∈ (GetJSON (fun _ => Except.ok "B") c10EnvDec (.other "T")
      (fun _ => Except.ok ()) c10Client "u" 5).2.2 := by
  have h := C10_empty_body_refetch c10Client ⟨[⟨"u", "", 5⟩], []⟩ "u" 5 ⟨"u", "", 5⟩
    rfl (by decide) rfl
  exact ⟨h.1, h.2 Unit _ c10EnvDec _ _ rfl⟩

/-- Claim C6 counterexample: a cached row whose age (0) is within the TTL (100) but
whose body is empty is reported as not found and the dispatch issues a network fetch,
refuting the clause that every row whose age is within the TTL is returned as a hit
with no network call. -/
theorem C6_counterexample :
    5 - 5 ≤ c6Client.cacheFor ∧
    cachedResponse c6Client "u" 5 = (none, some .sqlErrNoRows, [.cacheQuery "u"]) ∧
    Event.netCall "u" ∈ (GetJSON (fun _ => Except.ok "B") c6EnvDec (.other "T")
      (fun _ => Except.ok ()) c6Client "u" 5).2.2 := by decide

/-- Claim C6 (amended): the cache get reports not-found both when no row exists and
when the row's age exceeds the TTL, and in both cases a logged-in dispatch issues the
network fetch rather than reusing the entry; a row whose age is within the TTL and
whose body is nonempty is returned as a hit and the dispatch makes no network call. -/
theorem C6_ttl_staleness :
    (∀ (w : ClientStruct) (db : DB) (url : String) (now : Nat),
       w.db = some db →
       db.urlcache.find? (fun r => r.requesturl = url) = none →
       cachedResponse w url now = (none, some .sqlErrNoRows, [.cacheQuery url])) ∧
    (∀ (w : ClientStruct) (db : DB) (url : String) (now : Nat) (row : CacheRow),
       w.db = some db →
       db.urlcache.find? (fun r => r.requesturl = url) = some row →
       now - row.timestamp > w.cacheFor →
       cachedResponse w url now = (none, some .sqlErrNoRows, [.cacheQuery url])) ∧
    (∀ (τ : Type) (fetch : String → Except Err String)
       (envDec : String → Except Err GenericResponse) (target : TargetType)
       (unmarshal : String → Except Err τ) (w : ClientStruct) (url : String) (now : Nat),
       w.loggedIn = true →
       (cachedResponse w url now).2.1 = some Err.sqlErrNoRows →
       Event.netCall url ∈ (GetJSON fetch envDec target unmarshal w url now).2.2) ∧
    (∀ (τ : Type) (fetch : String → Except Err String)
       (envDec : String → Except Err GenericResponse) (target : TargetType)
       (unmarshal : String → Except Err τ) (w : ClientStruct) (db : DB) (url : String)
       (now : Nat) (row : CacheRow),
       w.loggedIn = true → w.db = some db →
       db.urlcache.find? (fun r => r.requesturl = url) = some row →
       row.body ≠ "" → now - row.timestamp ≤ w.cacheFor →
       cachedResponse w url now = (some row.body, none, [.cacheQuery url]) ∧
       (GetJSON fetch envDec target unmarshal w url now).2.2 = [.cacheQuery url]) := by
  refine ⟨?_, ?_, ?_, ?_⟩
  · intro w db url now hdb hfind
    unfold cachedResponse
    rw [hdb]
    simp only [hfind]
  · intro w db url now row hdb hfind hstale
    unfold cachedResponse
    rw [hdb]
    simp only [hfind]
    simp [hstale]
  · intro τ fetch envDec target unmarshal w url now hin hmiss
    exact GetJSON_miss_netCall fetch envDec target unmarshal w url now hin hmiss
  · intro τ fetch envDec target unmarshal w db url now row hin hdb hfind hbody hlive
    have hcond : ¬ (row.body = "" ∨ now - row.timestamp > w.cacheFor) := by
      push_neg
      exact ⟨hbody, hlive⟩
    have hc : cachedResponse w url now = (some row.body, none, [.cacheQuery url]) := by
      unfold cachedResponse
      rw [hdb]
      simp only [hfind]
      simp [hcond]
    refine ⟨hc, ?_⟩
    unfold GetJSON
    rw [hin]
    simp only [hc, hdb]
    simp [decodePhase_trace]

/-- Claim C6 witness: at concrete clients, a missing row is a miss, an expired row is
a miss, and a live nonempty row is a hit whose dispatch trace is only the cache read. -/
theorem C6_witness :
    cachedResponse c6wClientA "u" 5 = (none, some .sqlErrNoRows, [.cacheQuery "u"]) ∧
    cachedResponse c6wClientB "u" 200 = (none, some .sqlErrNoRows, [.cacheQuery "u"]) ∧
    (cachedResponse c6wClientB "u" 50 = (some "B", none, [.cacheQuery "u"]) ∧
     (GetJSON (fun _ => Except.ok "X") c6EnvDec (.other "T") (fun _ => Except.ok ())
       c6wClientB "u" 50).2.2 = [.cacheQuery "u"]) := by
  refine ⟨?_, ?_, ?_⟩
  · exact C6_ttl_staleness.1 c6wClientA ⟨[], []⟩ "u" 5 rfl (by decide)
  · exact C6_ttl_staleness.2.1 c6wClientB ⟨[⟨"u", "B", 5⟩], []⟩ "u" 200 ⟨"u", "B", 5⟩
      rfl (by decide) (by decide)
  · exact C6_ttl_staleness.2.2.2 Unit (fun _ => Except.ok "X") c6EnvDec (.other "T")
      (fun _ => Except.ok ()) c6wClientB ⟨[⟨"u", "B", 5⟩], []⟩ "u" 50 ⟨"u", "B", 5⟩
      rfl rfl (by decide) (by decide) (by decide)

/-- Claim C7: with the sqlite REPLACE driver, two consecutive cache writes to the
same key both succeed and leave exactly one row for that key, holding the most recent
body; and for any driver outcome that does not affect exactly one row, updateCache
reports the hard error instead of silently accepting the write. -/
theorem C7_replace_semantics :
    (∀ (w : ClientStruct) (db : DB) (url b1 b2 : String) (t1 t2 : Nat),
       w.db = some db →
       (updateCache sqliteReplaceUrlcache w url b1 t1).1 = .ok () ∧
       (updateCache sqliteReplaceUrlcache
         ((updateCache sqliteReplaceUrlcache w url b1 t1).2.1) url b2 t2).1 = .ok () ∧
       (∃ db2,
         (updateCache sqliteReplaceUrlcache
           ((updateCache sqliteReplaceUrlcache w url b1 t1).2.1) url b2 t2).2.1.db
             = some db2 ∧
         db2.urlcache.filter (fun r => r.requesturl = url) = [⟨url, b2, t2⟩])) ∧
    (∀ (exec : List CacheRow → String → String → Nat → List CacheRow × Int)
       (w : ClientStruct) (db : DB) (url b : String) (now : Nat),
       w.db = some db →
       (exec db.urlcache url b now).2 ≠ 1 →
       (updateCache exec w url b now).1
         = .error (.dbError ("INSERT affected " ++ toString (exec db.urlcache url b now).2
             ++ " rows, expected 1"))) := by
  constructor
  · intro w db url b1 b2 t1 t2 hdb
    unfold updateCache
    rw [hdb]
    simp only [sqliteReplaceUrlcache]
    simp [List.filter_cons, filter_eq_after_ne]
  · intro exec w db url b now hdb hrows
    unfold updateCache
    rw [hdb]
    simp [hrows]

/-- Claim C7 witness: two concrete writes to key u leave exactly the second row, and
a driver reporting zero affected rows makes the write a hard error. -/
theorem C7_witness :
    (updateCache sqliteReplaceUrlcache c7Client "u" "a" 1).1 = .ok () ∧
    (updateCache sqliteReplaceUrlcache
      ((updateCache sqliteReplaceUrlcache c7Client "u" "a" 1).2.1) "u" "b" 2).1 = .ok () ∧
    (∃ db2,
      (updateCache sqliteReplaceUrlcache
        ((updateCache sqliteReplaceUrlcache c7Client "u" "a" 1).2.1) "u" "b" 2).2.1.db
          = some db2 ∧
      db2.urlcache.filter (fun r => r.requesturl = "u") = [⟨"u", "b", 2⟩]) ∧
    (updateCache c7BadExec c7Client "u" "a" 1).1
      = .error (.dbError ("INSERT affected " ++ toString (c7BadExec [] "u" "a" 1).2
          ++ " rows, expected 1")) := by
  have h1 := C7_replace_semantics.1 c7Client ⟨[], []⟩ "u" "a" "b" 1 2 rfl
  have h2 := C7_replace_semantics.2 c7BadExec c7Client ⟨[], []⟩ "u" "a" 1 rfl (by decide)
  exact ⟨h1.1, h1.2.1, h1.2.2, h2⟩

/-- Claim C5: for the ArtistResponse target a first decode failure makes dispatch
run the decode once more against the body with every extendedArtists-false fragment
rewritten to an empty object, so a body whose only defect is that fragment still
decodes successfully; and for every target other than the two known-quirky shapes the
final decode runs on the unrewritten body, failing or not as that decode does. -/
theorem C5_artist_quirk :
    (∀ (τ : Type) (unmarshal : String → Except Err τ)
       (envDec : String → Except Err GenericResponse) (b : String) (st : GenericResponse)
       (w : ClientStruct) (url : String) (now : Nat) (e : Err) (v : τ),
       w.loggedIn = true → w.db = none →
       envDec b = .ok st → st.status = "success" →
       unmarshal b = .error e →
       unmarshal (replaceAll b extArtistsOld extArtistsNew) = .ok v →
       GetJSON (fun _ => .ok b) envDec .artistResponse unmarshal w url now
         = (.ok v, w, [Event.netCall url])) ∧
    (∀ (τ : Type) (unmarshal : String → Except Err τ)
       (envDec : String → Except Err GenericResponse) (b : String) (st : GenericResponse)
       (w : ClientStruct) (url : String) (now : Nat) (name : String),
       w.loggedIn = true → w.db = none →
       envDec b = .ok st → st.status = "success" →
       GetJSON (fun _ => .ok b) envDec (.other name) unmarshal w url now
         = (unmarshal b, w, [Event.netCall url])) := by
  constructor
  · intro τ unmarshal envDec b st w url now e v hin hdb hdec hst hfail hok
    unfold GetJSON
    rw [hin, hdb]
    simp only [cachedResponse, updateCache, decodePhase, checkResponseStatus, hdec, hst,
      hfail, hok, hdb]
    simp [hdb]
  · intro τ unmarshal envDec b st w url now name hin hdb hdec hst
    unfold GetJSON
    rw [hin, hdb]
    simp only [cachedResponse, updateCache, decodePhase, checkResponseStatus, hdec, hst, hdb]
    simp [hdb]

/-- Claim C5 witness: the concrete body carrying the malformed fragment fails its
first decode, and dispatch returns the successful decode of the rewritten body. -/
theorem C5_witness :
    GetJSON (fun _ => .ok c5Body) c5EnvDec .artistResponse c5Unm c5Client "u" 0
      = (.ok c5BodyFixed, c5Client, [Event.netCall "u"]) := by
  have h := C5_artist_quirk.1 String c5Unm c5EnvDec c5Body ⟨"success", ""⟩ c5Client "u" 0
    (.decodeError "ea") c5BodyFixed rfl rfl rfl rfl (by decide) (by decide)
  exact h

/-- Claim C9: GetAccount restores db and loggedIn to their pre-call values on every
path, changes nothing else apart from possibly the two secrets, and on every error
path returns the client entirely unchanged, so authkey and passkey are updated only
when the probe succeeds. -/
theorem C9_probe_frame (env : Env) (w : ClientStruct) (now : Nat) :
    (GetAccount env w now).2.1.db = w.db ∧
    (GetAccount env w now).2.1.loggedIn = w.loggedIn ∧
    (∃ a pk, (GetAccount env w now).2.1 = { w with authkey := a, passkey := pk }) ∧
    (∀ e : Err, (GetAccount env w now).1 = .error e → (GetAccount env w now).2.1 = w) := by
  obtain ⟨a, pk, h⟩ := GetAccount_client env w now
  refine ⟨by rw [h], by rw [h], ⟨a, pk, h⟩, ?_⟩
  intro e he
  exact GetAccount_error_client env w now e he

/-- Claim C9 witness: at a concrete client whose probe fails at the transport, the
probe returns that error and the client is returned entirely unchanged, cache, flag
and secrets included. -/
theorem C9_witness :
    (GetAccount c9Env c9Client 0).1 = .error (.netError "down") ∧
    (GetAccount c9Env c9Client 0).2.1 = c9Client :=
  ⟨by decide, (C9_probe_frame c9Env c9Client 0).2.2.2 (.netError "down") (by decide)⟩

/-- When the cookies table holds a record for the base URL and it parses, getCookies
returns it loaded into the jar. -/
theorem getCookies_found (env : Env) (w : ClientStruct) (db : DB) (entry : String × String)
    (j : String) (hdb : w.db = some db)
    (hrec : db.cookies.find? (fun p => p.1 = w.baseURL) = some entry)
    (hparse : env.parseCookies entry.2 = .ok j) :
    getCookies env w = (.ok (), { w with jar := j }, [.cookiesLoad]) := by
  unfold getCookies
  rw [hdb]
  simp only [hrec, hparse]

/-- Clearing cookies on a client with a backing store empties the jar and persists the
empty record for the base URL. -/
theorem clearCookies_some (w : ClientStruct) (db : DB) (hdb : w.db = some db) :
    ∃ w3, clearCookies w = (.ok (), w3, [.cookiesSave]) ∧ w3.jar = "" ∧
      w3.db = some { db with cookies :=
        (w.baseURL, "") :: db.cookies.filter (fun p => p.1 ≠ w.baseURL) } ∧
      w3.baseURL = w.baseURL := by
  unfold clearCookies saveCookies
  simp only [hdb]
  exact ⟨_, rfl, rfl, rfl, rfl⟩

/-- A successful credential submission always carries the POST, the account probe
network call, and a cookies-table write exactly when a backing store is configured. -/
theorem loginSubmit_ok_trace (env : Env) (w : ClientStruct) (username password : String)
    (now : Nat) (h : (loginSubmit env w username password now).1 = .ok ()) :
    Event.netCall (buildURL w.baseURL "ajax.php" "index" [])
      ∈ (loginSubmit env w username password now).2.2 ∧
    Event.loginPost ∈ (loginSubmit env w username password now).2.2 ∧
    (Event.cookiesSave ∈ (loginSubmit env w username password now).2.2 ↔
      w.db.isSome = true) := by
  unfold loginSubmit at h ⊢
  cases hp : env.postLogin username password with
  | error e =>
    rw [hp] at h
    simp at h
  | ok finalURL =>
    rw [hp] at h
    simp only at h ⊢
    by_cases hm : containsSubstr finalURL "index" = false
    · rw [if_pos hm] at h
      simp at h
    · rw [if_neg hm] at h ⊢
      rcases hga : GetAccount env { w with loggedIn := true } now with ⟨ra, w2, evsA⟩
      cases ra with
      | error e =>
        rw [hga] at h
        simp at h
      | ok u =>
        rw [hga] at h
        simp only at h
        have htr := GetAccount_trace env { w with loggedIn := true } now
        rw [hga] at htr
        simp only at htr
        obtain ⟨a, pk, hcl⟩ := GetAccount_client env { w with loggedIn := true } now
        rw [hga] at hcl
        simp only at hcl
        rcases hs : saveCookies w2 with ⟨rs, w3, evsS⟩
        have hw2db : w2.db = w.db := by rw [hcl]
        have hevsS : evsS = [] ∨ (evsS = [Event.cookiesSave] ∧ w.db.isSome = true) := by
          unfold saveCookies at hs
          rw [hw2db] at hs
          cases hdb : w.db with
          | none =>
            rw [hdb] at hs
            simp only [Prod.mk.injEq] at hs
            exact Or.inl hs.2.2.symm
          | some db =>
            rw [hdb] at hs
            simp only [Prod.mk.injEq] at hs
            exact Or.inr ⟨hs.2.2.symm, rfl⟩
        have hdbiff : evsS = [] → w.db.isSome = false := by
          intro he
          unfold saveCookies at hs
          rw [hw2db] at hs
          cases hdb : w.db with
          | none => rfl
          | some db =>
            rw [hdb] at hs
            simp only [Prod.mk.injEq] at hs
            rw [he] at hs
            cases hs.2.2
        subst htr
        rcases hevsS with he | ⟨he, hsome⟩
        · subst he
          refine ⟨by simp, by simp, ?_⟩
          simp [hs, hdbiff rfl]
        · subst he
          refine ⟨by simp, by simp, ?_⟩
          simp [hs, hsome]

/-- Claim C2 counterexample: a Login that succeeds through silent cookie-based
resumption returns success having performed the probe but without persisting the
cookie jar: no cookies-table write appears in its trace, refuting the claim that every
successful Login persists the jar before returning. -/
theorem C2_counterexample :
    (Login c2Env c2Client "u" "p" 0).1 = .ok () ∧
    Event.cookiesSave ∉ (Login c2Env c2Client "u" "p" 0).2.2 := by decide

/-- Claim C2 (amended): every successful Login has performed the account-info probe
(its trace contains the non-cached account network call); the cookie jar is persisted
before returning exactly when Login went through credential submission with a backing
store configured — the silent cookie-resumption success path returns without
persisting the jar it loaded. -/
theorem C2_amended_probe_and_persistence (env : Env) (w : ClientStruct)
    (username password : String) (now : Nat)
    (h : (Login env w username password now).1 = .ok ()) :
    Event.netCall (buildURL w.baseURL "ajax.php" "index" [])
      ∈ (Login env w username password now).2.2 ∧
    (Event.cookiesSave ∈ (Login env w username password now).2.2 ↔
      (Event.loginPost ∈ (Login env w username password now).2.2 ∧
        w.db.isSome = true)) := by
  unfold Login at h ⊢
  cases hdb : w.db with
  | none =>
    rw [hdb] at h
    simp only at h ⊢
    obtain ⟨h1, h2, h3⟩ := loginSubmit_ok_trace env w username password now h
    refine ⟨h1, ?_⟩
    rw [hdb] at h3
    simp at h3
    simp [h3, h2]
  | some db =>
    rw [hdb] at h
    simp only at h ⊢
    rcases hgc : getCookies env w with ⟨rg, w1, evs1⟩
    rw [hgc] at h
    cases rg with
    | error e =>
      simp at h
    | ok u =>
      simp only at h ⊢
      rcases hga : GetAccount env w1 now with ⟨ra, w2, evs2⟩
      rw [hga] at h
      obtain ⟨j, hw1⟩ := getCookies_ok_client env w u w1 evs1 hgc
      have hw1db : w1.db = w.db := by rw [hw1]
      have hw1base : w1.baseURL = w.baseURL := by rw [hw1]
      have htr := GetAccount_trace env w1 now
      rw [hga] at htr
      simp only at htr
      have hevs1 := getCookies_events env w
      rw [hgc] at hevs1
      simp only at hevs1
      cases ra with
      | ok u2 =>
        simp only at h ⊢
        rw [htr, hw1base]
        rcases hevs1 with he1 | he1
        · subst he1
          simp
        · subst he1
          simp
      | error e =>
        simp only at h ⊢
        obtain ⟨a, pk, hcl⟩ := GetAccount_client env w1 now
        rw [hga] at hcl
        simp only at hcl
        have hw2db : w2.db = some db := by rw [hcl]; rw [hw1db]; exact hdb
        obtain ⟨w3, hcc, hjar3, hdb3, hbase3⟩ := clearCookies_some w2 db hw2db
        rw [hcc] at h ⊢
        simp only at h ⊢
        rcases hls : loginSubmit env w3 username password now with ⟨rl, w4, evs4⟩
        rw [hls] at h
        simp only at h ⊢
        obtain ⟨hl1, hl2, hl3⟩ := loginSubmit_ok_trace env w3 username password now
          (by rw [hls]; exact h)
        rw [hls] at hl1 hl2 hl3
        simp only at hl1 hl2 hl3
        rw [htr, hw1base]
        constructor
        · rcases hevs1 with he1 | he1 <;> subst he1 <;> simp
        · rcases hevs1 with he1 | he1 <;> subst he1 <;> simp [hl2]

/-- Claim C2 witness: at a concrete silently resuming client, the amended statement
holds: the probe call is in the trace, and the cookies-table write is absent exactly
as the credential POST is. -/
theorem C2_witness :
    Event.netCall (buildURL c2Client.baseURL "ajax.php" "index" [])
      ∈ (Login c2Env c2Client "u" "p" 0).2.2 ∧
    (Event.cookiesSave ∈ (Login c2Env c2Client "u" "p" 0).2.2 ↔
      (Event.loginPost ∈ (Login c2Env c2Client "u" "p" 0).2.2 ∧
        c2Client.db.isSome = true)) :=
  C2_amended_probe_and_persistence c2Env c2Client "u" "p" 0 (by decide)

/-- Claim C8: for a client whose backing store holds a previously saved, parseable
cookie record for its base URL, Login first loads it into the jar and probes account
info; on probe success Login returns success with loggedIn set and no credential POST
in its trace; on probe failure the jar is reset to empty, the empty record is
persisted for the base URL, and Login falls through to credential submission,
returning its outcome. -/
theorem C8_cookie_resumption (env : Env) (w : ClientStruct) (db : DB)
    (entry : String × String) (username password : String) (now : Nat) (j : String)
    (hdb : w.db = some db)
    (hrec : db.cookies.find? (fun p => p.1 = w.baseURL) = some entry)
    (hparse : env.parseCookies entry.2 = .ok j) :
    ((GetAccount env { w with jar := j } now).1 = .ok () →
       (Login env w username password now).1 = .ok () ∧
       (Login env w username password now).2.1.loggedIn = true ∧
       Event.loginPost ∉ (Login env w username password now).2.2) ∧
    (∀ e : Err, (GetAccount env { w with jar := j } now).1 = .error e →
       ∃ w3,
         clearCookies (GetAccount env { w with jar := j } now).2.1
           = (.ok (), w3, [.cookiesSave]) ∧
         w3.jar = "" ∧
         w3.db = some { db with cookies :=
           (w.baseURL, "") :: db.cookies.filter (fun p => p.1 ≠ w.baseURL) } ∧
         Login env w username password now
           = ((loginSubmit env w3 username password now).1,
              (loginSubmit env w3 username password now).2.1,
              [Event.cookiesLoad] ++ (GetAccount env { w with jar := j } now).2.2
                ++ [Event.cookiesSave]
                ++ (loginSubmit env w3 username password now).2.2)) := by
  have hgc := getCookies_found env w db entry j hdb hrec hparse
  constructor
  · intro hok
    unfold Login
    rw [hdb]
    simp only
    rw [hgc]
    simp only
    rcases hga : GetAccount env { w with jar := j } now with ⟨ra, w2, evs2⟩
    rw [hga] at hok
    simp only at hok
    cases ra with
    | error e2 =>
      simp at hok
    | ok u =>
      simp only
      have htr := GetAccount_trace env { w with jar := j } now
      rw [hga] at htr
      simp only at htr
      subst htr
      refine ⟨trivial, trivial, ?_⟩
      simp
  · intro e he
    rcases hga : GetAccount env { w with jar := j } now with ⟨ra, w2, evs2⟩
    rw [hga] at he
    simp only at he
    subst he
    obtain ⟨a, pk, hcl⟩ := GetAccount_client env { w with jar := j } now
    rw [hga] at hcl
    simp only at hcl
    have hw2db : w2.db = some db := by rw [hcl]; exact hdb
    have hbase2 : w2.baseURL = w.baseURL := by rw [hcl]
    obtain ⟨w3, hcc, hjar3, hdb3, hbase3⟩ := clearCookies_some w2 db hw2db
    refine ⟨w3, hcc, hjar3, by rw [hdb3, hbase2], ?_⟩
    unfold Login
    rw [hdb]
    simp only
    rw [hgc]
    simp only
    rw [hga]
    simp only
    rw [hcc]

/-- Claim C8 witness: at a concrete client whose saved cookie record leads to a
successful probe, Login succeeds, reaches the authenticated state, and never posts
credentials. -/
theorem C8_witness :
    (Login c8Env c8Client "u" "p" 0).1 = .ok () ∧
    (Login c8Env c8Client "u" "p" 0).2.1.loggedIn = true ∧
    Event.loginPost ∉ (Login c8Env c8Client "u" "p" 0).2.2 :=
  (C8_cookie_resumption c8Env c8Client ⟨[], [("https://t/", "J")]⟩ ("https://t/", "J")
    "u" "p" 0 "J" rfl (by decide) rfl).1 (by decide)

end Whatapi
